import Mathlib

/-!
Shallow embedding of the mobot typed request/response binding layer
(src/lib/api/message.rs and src/lib/api/chat.rs) and proofs about its
wire mapping, following the serde derive semantics used by the source:
a field is emitted in declaration order; an `Option` field annotated
`skip_serializing_if = "Option::is_none"` is elided when `None`; an
`Option` field without that annotation is emitted as JSON `null` when
`None`; a `rename` annotation changes the wire key; `flatten` splices a
sub-structure's entries into the parent object. Deserialization ignores
unknown keys, treats a missing or `null` key for an `Option` field as
`None`, and fails on a missing required key, naming the field.
-/

namespace Mobot

/-- JSON values; objects are ordered association lists, mirroring the
order in which serde emits fields. Numbers are integers (`i64` in the
source). -/
inductive Json where
  | null : Json
  | bool : Bool → Json
  | num : Int → Json
  | str : String → Json
  | arr : List Json → Json
  | obj : List (String × Json) → Json

/-- Look a key up in a JSON object (first occurrence). -/
def Json.lookupKey : Json → String → Option Json
  | .obj o, k => o.lookup k
  | _, _ => none

/-- Whether a JSON object contains the given key. -/
def Json.hasKey (j : Json) (k : String) : Bool :=
  (j.lookupKey k).isSome

def Json.asInt : Json → Except String Int
  | .num n => .ok n
  | _ => .error "expected integer"

def Json.asStr : Json → Except String String
  | .str s => .ok s
  | _ => .error "expected string"

def Json.asBool : Json → Except String Bool
  | .bool b => .ok b
  | _ => .error "expected boolean"

/-- Extraction of a required field: missing key is an error naming the
field (serde: "missing field"). -/
def reqField (o : List (String × Json)) (name : String)
    (f : Json → Except String α) : Except String α :=
  match o.lookup name with
  | some v => f v
  | none => .error ("missing field " ++ name)

/-- Extraction of an `Option` field: a missing key or a `null` value
yields `none` (serde's behaviour for `Option<T>`), otherwise the
payload is decoded. -/
def optField (o : List (String × Json)) (name : String)
    (f : Json → Except String α) : Except String (Option α) :=
  match o.lookup name with
  | none => .ok none
  | some .null => .ok none
  | some v => (f v).map some

/-- Entry list of an `Option` field annotated
`skip_serializing_if = "Option::is_none"`: elided when `none`. -/
def optEntry (name : String) (o : Option α) (f : α → Json) :
    List (String × Json) :=
  match o with
  | some a => [(name, f a)]
  | none => []

/-- Entry list of an `Option` field without a skip annotation: always
emitted, as `null` when `none`. -/
def nullableEntry (name : String) (o : Option α) (f : α → Json) :
    List (String × Json) :=
  [(name, match o with | some a => f a | none => .null)]

/-- `ParseMode` from src/lib/api/message.rs, lines 117-127. -/
inductive ParseMode where
  | MarkdownV2 : ParseMode
  | Markdown : ParseMode
  | HTML : ParseMode
  | Text : ParseMode
deriving DecidableEq, Repr

/-- The declared serde rename token of each `ParseMode` variant. -/
def ParseMode.toJson : ParseMode → Json
  | .MarkdownV2 => .str "MarkdownV2"
  | .Markdown => .str "Markdown"
  | .HTML => .str "HTML"
  | .Text => .str ""

def ParseMode.fromJson : Json → Except String ParseMode
  | .str s =>
    if s = "MarkdownV2" then .ok .MarkdownV2
    else if s = "Markdown" then .ok .Markdown
    else if s = "HTML" then .ok .HTML
    else if s = "" then .ok .Text
    else .error ("unknown variant " ++ s ++ " for ParseMode")
  | _ => .error "expected string for ParseMode"

/-- `ChatAction` from src/lib/api/chat.rs, lines 47-69, with each
variant's declared serde rename token. -/
inductive ChatAction where
  | Typing : ChatAction
  | UploadPhoto : ChatAction
  | RecordVideo : ChatAction
  | UploadVideo : ChatAction
  | RecordAudio : ChatAction
  | UploadAudio : ChatAction
  | UploadDocument : ChatAction
  | FindLocation : ChatAction
  | RecordVideoNote : ChatAction
  | UploadVideoNote : ChatAction
deriving DecidableEq, Repr

def ChatAction.toJson : ChatAction → Json
  | .Typing => .str "typing"
  | .UploadPhoto => .str "upload_photo"
  | .RecordVideo => .str "record_video"
  | .UploadVideo => .str "upload_video"
  | .RecordAudio => .str "record_audio"
  | .UploadAudio => .str "upload_audio"
  | .UploadDocument => .str "upload_document"
  | .FindLocation => .str "find_location"
  | .RecordVideoNote => .str "record_video_note"
  | .UploadVideoNote => .str "upload_video_note"

def ChatAction.fromJson : Json → Except String ChatAction
  | .str s =>
    if s = "typing" then .ok .Typing
    else if s = "upload_photo" then .ok .UploadPhoto
    else if s = "record_video" then .ok .RecordVideo
    else if s = "upload_video" then .ok .UploadVideo
    else if s = "record_audio" then .ok .RecordAudio
    else if s = "upload_audio" then .ok .UploadAudio
    else if s = "upload_document" then .ok .UploadDocument
    else if s = "find_location" then .ok .FindLocation
    else if s = "record_video_note" then .ok .RecordVideoNote
    else if s = "upload_video_note" then .ok .UploadVideoNote
    else .error ("unknown variant " ++ s ++ " for ChatAction")
  | _ => .error "expected string for ChatAction"

/-- Modelled from the spec: the `ReplyMarkup` type lives in a source
file of this repository that is not included (only `message.rs` and
`chat.rs` are); the spec names exactly one constructor of it, the
reply-keyboard-removal marker used by the "remove the reply keyboard"
convenience operation. It is modelled as that single marker,
serialized as a one-key JSON object `remove_keyboard`. -/
inductive ReplyMarkup where
  | replyKeyboardRemove : ReplyMarkup
deriving DecidableEq, Repr

/-- `ReplyMarkup::reply_keyboard_remove()` named by the spec. -/
def ReplyMarkup.reply_keyboard_remove : ReplyMarkup :=
  .replyKeyboardRemove

def ReplyMarkup.toJson : ReplyMarkup → Json
  | .replyKeyboardRemove => .obj [("remove_keyboard", .bool true)]

def ReplyMarkup.fromJson : Json → Except String ReplyMarkup
  | .obj o =>
    match o.lookup "remove_keyboard" with
    | some _ => .ok .replyKeyboardRemove
    | none => .error "expected reply markup object"
  | _ => .error "expected object for ReplyMarkup"

/-- `ReplyParameters` from src/lib/api/message.rs, lines 129-155. The
source keeps `chat_id` (an i64 OR a String per its comment) and
`quote_entities` as untyped `serde_json::value::Value`, embedded here
as raw `Json`. -/
structure ReplyParameters where
  message_id : Int
  chat_id : Option Json
  allow_sending_without_reply : Option Bool
  quote : Option String
  quote_parse_mode : Option String
  quote_entities : Option Json
  quote_position : Option Int

/-- Serialization of `ReplyParameters`: `message_id` required, every
other field `skip_serializing_if = "Option::is_none"`. -/
def ReplyParameters.toJson (r : ReplyParameters) : Json :=
  .obj ([("message_id", .num r.message_id)]
    ++ optEntry "chat_id" r.chat_id id
    ++ optEntry "allow_sending_without_reply" r.allow_sending_without_reply Json.bool
    ++ optEntry "quote" r.quote Json.str
    ++ optEntry "quote_parse_mode" r.quote_parse_mode Json.str
    ++ optEntry "quote_entities" r.quote_entities id
    ++ optEntry "quote_position" r.quote_position Json.num)

def ReplyParameters.fromJson : Json → Except String ReplyParameters
  | .obj o => do
    let message_id ← reqField o "message_id" Json.asInt
    let chat_id ← optField o "chat_id" Except.ok
    let allow_sending_without_reply ← optField o "allow_sending_without_reply" Json.asBool
    let quote ← optField o "quote" Json.asStr
    let quote_parse_mode ← optField o "quote_parse_mode" Json.asStr
    let quote_entities ← optField o "quote_entities" Except.ok
    let quote_position ← optField o "quote_position" Json.asInt
    .ok ⟨message_id, chat_id, allow_sending_without_reply, quote,
      quote_parse_mode, quote_entities, quote_position⟩
  | _ => .error "expected object for ReplyParameters"

/-- A `serde_json::Value` stored in an `Option` survives the wire only
if it is not JSON `null` (a `null` reads back as `None`): validity of a
`ReplyParameters` value, with `chat_id` an integer or a string as the
source comment states. -/
def ReplyParameters.valid (r : ReplyParameters) : Bool :=
  (match r.chat_id with
   | some (.num _) => true
   | some (.str _) => true
   | some _ => false
   | none => true) &&
  (match r.quote_entities with
   | some .null => false
   | _ => true)

/-- `SendMessageRequest` from src/lib/api/message.rs, lines 157-179.
Note: `message_thread_id` carries no `skip_serializing_if` annotation
in the source, so it is always emitted (as `null` when absent). -/
structure SendMessageRequest where
  chat_id : Int
  message_thread_id : Option Int
  text : String
  reply_parameters : Option ReplyParameters
  parse_mode : Option ParseMode
  reply_markup : Option ReplyMarkup

/-- `SendMessageRequest::new`: required fields from the arguments, all
others from `Default` (`None`). -/
def SendMessageRequest.new (chat_id : Int) (text : String) :
    SendMessageRequest :=
  { chat_id := chat_id, message_thread_id := none, text := text,
    reply_parameters := none, parse_mode := none, reply_markup := none }

def SendMessageRequest.with_message_thread_id (r : SendMessageRequest)
    (message_thread_id : Int) : SendMessageRequest :=
  { r with message_thread_id := some message_thread_id }

def SendMessageRequest.with_reply_markup (r : SendMessageRequest)
    (reply_markup : ReplyMarkup) : SendMessageRequest :=
  { r with reply_markup := some reply_markup }

def SendMessageRequest.with_parse_mode (r : SendMessageRequest)
    (parse_mode : ParseMode) : SendMessageRequest :=
  { r with parse_mode := some parse_mode }

def SendMessageRequest.toJson (r : SendMessageRequest) : Json :=
  .obj ([("chat_id", .num r.chat_id)]
    ++ nullableEntry "message_thread_id" r.message_thread_id Json.num
    ++ [("text", .str r.text)]
    ++ optEntry "reply_parameters" r.reply_parameters ReplyParameters.toJson
    ++ optEntry "parse_mode" r.parse_mode ParseMode.toJson
    ++ optEntry "reply_markup" r.reply_markup ReplyMarkup.toJson)

def SendMessageRequest.fromJson : Json → Except String SendMessageRequest
  | .obj o => do
    let chat_id ← reqField o "chat_id" Json.asInt
    let message_thread_id ← optField o "message_thread_id" Json.asInt
    let text ← reqField o "text" Json.asStr
    let reply_parameters ← optField o "reply_parameters" ReplyParameters.fromJson
    let parse_mode ← optField o "parse_mode" ParseMode.fromJson
    let reply_markup ← optField o "reply_markup" ReplyMarkup.fromJson
    .ok ⟨chat_id, message_thread_id, text, reply_parameters, parse_mode,
      reply_markup⟩
  | _ => .error "expected object for SendMessageRequest"

/-- Validity of a `SendMessageRequest`: its nested `ReplyParameters`
value, when present, is valid. -/
def SendMessageRequest.valid (r : SendMessageRequest) : Bool :=
  match r.reply_parameters with
  | some p => p.valid
  | none => true

/-- `EditMessageBase` from src/lib/api/message.rs, lines 205-229: the
shared base of the edit-message requests; every field is optional with
`skip_serializing_if = "Option::is_none"`. `reply_markup` is kept as an
already-JSON-stringified `String` by the source. -/
structure EditMessageBase where
  chat_id : Option Int
  message_id : Option Int
  inline_message_id : Option String
  parse_mode : Option ParseMode
  reply_markup : Option String

/-- The entry list `EditMessageBase` contributes when serialized; with
`#[serde(flatten)]` these entries are spliced directly into the
enclosing request's object. -/
def EditMessageBase.jsonEntries (b : EditMessageBase) :
    List (String × Json) :=
  optEntry "chat_id" b.chat_id Json.num
    ++ optEntry "message_id" b.message_id Json.num
    ++ optEntry "inline_message_id" b.inline_message_id Json.str
    ++ optEntry "parse_mode" b.parse_mode ParseMode.toJson
    ++ optEntry "reply_markup" b.reply_markup Json.str

/-- `EditMessageBase::new()` (= `Default`). -/
def EditMessageBase.new : EditMessageBase :=
  ⟨none, none, none, none, none⟩

/-- `EditMessageTextRequest` from src/lib/api/message.rs, lines
257-266: `#[serde(flatten)] base` followed by the required `text`. -/
structure EditMessageTextRequest where
  base : EditMessageBase
  text : String

/-- Serialization of `EditMessageTextRequest`: the flattened base's
entries appear at top level, in base declaration order, followed by
`text`; no wrapper key is emitted for `base`. -/
def EditMessageTextRequest.toJson (r : EditMessageTextRequest) : Json :=
  .obj (r.base.jsonEntries ++ [("text", .str r.text)])

def EditMessageTextRequest.new (text : String) : EditMessageTextRequest :=
  ⟨EditMessageBase.new, text⟩

def EditMessageTextRequest.with_chat_id (r : EditMessageTextRequest)
    (chat_id : Int) : EditMessageTextRequest :=
  { r with base := { r.base with chat_id := some chat_id } }

def EditMessageTextRequest.with_message_id (r : EditMessageTextRequest)
    (message_id : Int) : EditMessageTextRequest :=
  { r with base := { r.base with message_id := some message_id } }

/-- `Chat` from src/lib/api/chat.rs, lines 6-33: `id` and the
`type`-renamed `chat_type` are required, all other fields optional
(without skip annotations). -/
structure Chat where
  id : Int
  chat_type : String
  title : Option String
  username : Option String
  first_name : Option String
  last_name : Option String
  all_members_are_administrators : Option Bool
  is_forum : Option Bool

def Chat.fromJson : Json → Except String Chat
  | .obj o => do
    let id ← reqField o "id" Json.asInt
    let chat_type ← reqField o "type" Json.asStr
    let title ← optField o "title" Json.asStr
    let username ← optField o "username" Json.asStr
    let first_name ← optField o "first_name" Json.asStr
    let last_name ← optField o "last_name" Json.asStr
    let all_members_are_administrators ←
      optField o "all_members_are_administrators" Json.asBool
    let is_forum ← optField o "is_forum" Json.asBool
    .ok ⟨id, chat_type, title, username, first_name, last_name,
      all_members_are_administrators, is_forum⟩
  | _ => .error "expected object for Chat"

/-- `ForumTopicCreated` from src/lib/api/message.rs, lines 7-19. -/
structure ForumTopicCreated where
  name : String
  icon_color : Int
  icon_custom_emoji_id : Option String

def ForumTopicCreated.fromJson : Json → Except String ForumTopicCreated
  | .obj o => do
    let name ← reqField o "name" Json.asStr
    let icon_color ← reqField o "icon_color" Json.asInt
    let icon_custom_emoji_id ← optField o "icon_custom_emoji_id" Json.asStr
    .ok ⟨name, icon_color, icon_custom_emoji_id⟩
  | _ => .error "expected object for ForumTopicCreated"

/-- `Message` from src/lib/api/message.rs, lines 23-96. The nested
`User`, `PhotoSize`, `Document` and `Sticker` types live in source
files not included here; their fields are kept as raw `Json` (the
source itself does exactly that for `reply_to_message`). The field
named `from` in the source is `from_` here (`from` is reserved in
Lean). -/
structure Message where
  message_id : Int
  message_thread_id : Option Int
  from_ : Option Json
  date : Int
  text : Option String
  photo : Option Json
  document : Option Json
  chat : Chat
  forward_from : Option Json
  forward_from_chat : Option Chat
  forward_from_message_id : Option Int
  forward_signature : Option String
  forward_sender_name : Option String
  forward_date : Option Int
  reply_to_message : Option Json
  sticker : Option Json
  forum_topic_created : Option ForumTopicCreated
  reply_markup : Option ReplyMarkup

/-- Deserialization of `Message`. `reply_markup` is
`#[serde(flatten)]`-embedded: modelled from the spec (the `ReplyMarkup`
source is not included), the flattened optional markup is present
exactly when its key is present among the object's entries, and absent
fields on the wire are absent in the value. -/
def Message.fromJson : Json → Except String Message
  | .obj o => do
    let message_id ← reqField o "message_id" Json.asInt
    let message_thread_id ← optField o "message_thread_id" Json.asInt
    let from_ ← optField o "from" Except.ok
    let date ← reqField o "date" Json.asInt
    let text ← optField o "text" Json.asStr
    let photo ← optField o "photo" Except.ok
    let document ← optField o "document" Except.ok
    let chat ← reqField o "chat" Chat.fromJson
    let forward_from ← optField o "forward_from" Except.ok
    let forward_from_chat ← optField o "forward_from_chat" Chat.fromJson
    let forward_from_message_id ← optField o "forward_from_message_id" Json.asInt
    let forward_signature ← optField o "forward_signature" Json.asStr
    let forward_sender_name ← optField o "forward_sender_name" Json.asStr
    let forward_date ← optField o "forward_date" Json.asInt
    let reply_to_message ← optField o "reply_to_message" Except.ok
    let sticker ← optField o "sticker" Except.ok
    let forum_topic_created ← optField o "forum_topic_created" ForumTopicCreated.fromJson
    let reply_markup :=
      match o.lookup "remove_keyboard" with
      | some _ => some ReplyMarkup.replyKeyboardRemove
      | none => none
    .ok ⟨message_id, message_thread_id, from_, date, text, photo, document,
      chat, forward_from, forward_from_chat, forward_from_message_id,
      forward_signature, forward_sender_name, forward_date,
      reply_to_message, sticker, forum_topic_created, reply_markup⟩
  | _ => .error "expected object for Message"

/-- `ChatPermissions` from src/lib/api/chat.rs, lines 93-136: fourteen
optional booleans, all `skip_serializing_if = "Option::is_none"`. -/
structure ChatPermissions where
  can_send_messages : Option Bool
  can_send_audios : Option Bool
  can_send_documents : Option Bool
  can_send_photos : Option Bool
  can_send_videos : Option Bool
  can_send_video_notes : Option Bool
  can_send_voice_notes : Option Bool
  can_send_polls : Option Bool
  can_send_other_messages : Option Bool
  can_add_web_page_previews : Option Bool
  can_change_info : Option Bool
  can_invite_users : Option Bool
  can_pin_messages : Option Bool
  can_manage_topics : Option Bool

def ChatPermissions.toJson (p : ChatPermissions) : Json :=
  .obj (optEntry "can_send_messages" p.can_send_messages Json.bool
    ++ optEntry "can_send_audios" p.can_send_audios Json.bool
    ++ optEntry "can_send_documents" p.can_send_documents Json.bool
    ++ optEntry "can_send_photos" p.can_send_photos Json.bool
    ++ optEntry "can_send_videos" p.can_send_videos Json.bool
    ++ optEntry "can_send_video_notes" p.can_send_video_notes Json.bool
    ++ optEntry "can_send_voice_notes" p.can_send_voice_notes Json.bool
    ++ optEntry "can_send_polls" p.can_send_polls Json.bool
    ++ optEntry "can_send_other_messages" p.can_send_other_messages Json.bool
    ++ optEntry "can_add_web_page_previews" p.can_add_web_page_previews Json.bool
    ++ optEntry "can_change_info" p.can_change_info Json.bool
    ++ optEntry "can_invite_users" p.can_invite_users Json.bool
    ++ optEntry "can_pin_messages" p.can_pin_messages Json.bool
    ++ optEntry "can_manage_topics" p.can_manage_topics Json.bool)

/-- `SetChatPermissionRequest` from src/lib/api/chat.rs, lines 138-144:
`chat_id` is a plain `String` in the source; `use_independent_chat_permissions`
has no skip annotation, so it serializes as `null` when absent. -/
structure SetChatPermissionRequest where
  chat_id : String
  permissions : ChatPermissions
  use_independent_chat_permissions : Option Bool

def SetChatPermissionRequest.toJson (r : SetChatPermissionRequest) : Json :=
  .obj ([("chat_id", .str r.chat_id)]
    ++ [("permissions", r.permissions.toJson)]
    ++ nullableEntry "use_independent_chat_permissions"
        r.use_independent_chat_permissions Json.bool)

/-- `BanChatMemberRequest` from src/lib/api/chat.rs, lines 288-306:
`until_date` is `skip_serializing_if = "Option::is_none"`, while
`revoke_messages` carries no skip annotation and therefore serializes
as `null` when absent. -/
structure BanChatMemberRequest where
  chat_id : String
  user_id : Int
  until_date : Option Int
  revoke_messages : Option Bool

/-- `BanChatMemberRequest::new`. -/
def BanChatMemberRequest.new (chat_id : String) (user_id : Int)
    (until_date : Option Int) (revoke_messages : Option Bool) :
    BanChatMemberRequest :=
  ⟨chat_id, user_id, until_date, revoke_messages⟩

def BanChatMemberRequest.toJson (r : BanChatMemberRequest) : Json :=
  .obj ([("chat_id", .str r.chat_id), ("user_id", .num r.user_id)]
    ++ optEntry "until_date" r.until_date Json.num
    ++ nullableEntry "revoke_messages" r.revoke_messages Json.bool)

def BanChatMemberRequest.fromJson : Json → Except String BanChatMemberRequest
  | .obj o => do
    let chat_id ← reqField o "chat_id" Json.asStr
    let user_id ← reqField o "user_id" Json.asInt
    let until_date ← optField o "until_date" Json.asInt
    let revoke_messages ← optField o "revoke_messages" Json.asBool
    .ok ⟨chat_id, user_id, until_date, revoke_messages⟩
  | _ => .error "expected object for BanChatMemberRequest"

/-- The opaque transport capability of the spec:
`post(method_name, body) -> Result<JSON, Error>`. -/
def Transport : Type :=
  String → Json → Except String Json

/-- `API::send_message` (src/lib/api/message.rs, lines 371-373):
serialize the request, post it under the wire method name
`sendMessage`, deserialize the result as a `Message`. -/
def API.send_message (t : Transport) (req : SendMessageRequest) :
    Except String Message :=
  (t "sendMessage" req.toJson).bind Message.fromJson

/-- `API::remove_reply_keyboard` (src/lib/api/message.rs, lines
418-428): delegate to `send_message` on a `SendMessageRequest` built
from the arguments with the keyboard-removal reply markup. -/
def API.remove_reply_keyboard (t : Transport) (chat_id : Int)
    (text : String) : Except String Message :=
  API.send_message t
    ((SendMessageRequest.new chat_id text).with_reply_markup
      ReplyMarkup.reply_keyboard_remove)

/-- The stub transport of the end-to-end scenario: it returns the fixed
response body regardless of the request. -/
def stubTransport : Transport :=
  fun _ _ => .ok (.obj [("message_id", .num 1), ("date", .num 1700000000),
    ("chat", .obj [("id", .num 123456789), ("type", .str "private")])])

/-- The identifier union exactly as the spec words it, for comparison
with the source's representation: a tagged union
`{ Integer(i64) | Text(string) }` whose decoder accepts a JSON number
or a JSON string and rejects every other JSON type. -/
inductive ChatIdKind where
  | Integer : Int → ChatIdKind
  | Text : String → ChatIdKind
deriving DecidableEq, Repr

def ChatIdKind.toJson : ChatIdKind → Json
  | .Integer n => .num n
  | .Text s => .str s

def ChatIdKind.fromJson : Json → Except String ChatIdKind
  | .num n => .ok (.Integer n)
  | .str s => .ok (.Text s)
  | _ => .error "chat_id must be an integer or a string"

theorem exceptMap_ok (f : α → β) (a : α) :
    (Except.map f (Except.ok a) : Except ε β) = .ok (f a) := rfl

theorem exceptBind_ok (a : α) (f : α → Except ε β) :
    (Except.ok a >>= f : Except ε β) = f a := rfl

set_option maxHeartbeats 2000000

/-- Serialize-then-deserialize is the identity on valid
`ReplyParameters` values. -/
theorem replyParameters_roundtrip (r : ReplyParameters) (h : r.valid = true) :
    ReplyParameters.fromJson r.toJson = .ok r := by
  obtain ⟨mid, cid, asr, q, qpm, qe, qp⟩ := r
  rcases cid with _ | v
  case none =>
    rcases qe with _ | w
    case none =>
      rcases asr <;> rcases q <;> rcases qpm <;> rcases qp <;> rfl
    case some =>
      rcases w <;> rcases asr <;> rcases q <;> rcases qpm <;> rcases qp <;>
        first
        | rfl
        | simp [ReplyParameters.valid] at h
  case some =>
    rcases v <;> rcases qe with _ | w <;>
      (try rcases w) <;> rcases asr <;> rcases q <;> rcases qpm <;> rcases qp <;>
      first
      | rfl
      | simp [ReplyParameters.valid] at h

/-- Serialize-then-deserialize is the identity on
`BanChatMemberRequest` values. -/
theorem banChatMemberRequest_roundtrip (r : BanChatMemberRequest) :
    BanChatMemberRequest.fromJson r.toJson = .ok r := by
  obtain ⟨c, u, ud, rm⟩ := r
  rcases ud <;> rcases rm <;> rfl

/-- Serialize-then-deserialize is the identity on valid
`SendMessageRequest` values. -/
theorem sendMessageRequest_roundtrip (r : SendMessageRequest)
    (h : r.valid = true) :
    SendMessageRequest.fromJson r.toJson = .ok r := by
  obtain ⟨cid, mti, text, rp, pm, rmk⟩ := r
  rcases rp with _ | p
  case none =>
    rcases mti <;> rcases pm with _ | pm <;> (try rcases pm) <;>
      rcases rmk with _ | rmk <;> (try rcases rmk) <;> rfl
  case some =>
    have hp : ReplyParameters.fromJson p.toJson = .ok p :=
      replyParameters_roundtrip p (by simpa [SendMessageRequest.valid] using h)
    obtain ⟨l, hl⟩ : ∃ l, p.toJson = Json.obj l := ⟨_, rfl⟩
    rw [hl] at hp
    rcases mti <;> rcases pm with _ | pm <;> (try rcases pm) <;>
      rcases rmk with _ | rmk <;> (try rcases rmk) <;>
      simp [SendMessageRequest.toJson, SendMessageRequest.fromJson, reqField,
        optField, optEntry, nullableEntry, List.lookup, ReplyMarkup.toJson,
        ParseMode.toJson, ReplyMarkup.fromJson, ParseMode.fromJson,
        Json.asInt, Json.asStr, hl, hp, exceptMap_ok, exceptBind_ok]

/-- C1: the claim is false as stated: since `message_thread_id` carries
no `skip_serializing_if` annotation in the source,
`SendMessageRequest::new(123456789, "Hello!")` does not serialize to
the two-key object `chat_id`/`text`; its serialization contains the
extra key `message_thread_id` (with value `null`). -/
theorem C1_counterexample :
    (SendMessageRequest.new 123456789 "Hello!").toJson.hasKey
        "message_thread_id" = true ∧
    (SendMessageRequest.new 123456789 "Hello!").toJson
      ≠ Json.obj [("chat_id", .num 123456789), ("text", .str "Hello!")] := by
  refine ⟨rfl, ?_⟩
  simp [SendMessageRequest.new, SendMessageRequest.toJson, nullableEntry,
    optEntry]

/-- C1 (amended): `SendMessageRequest::new(123456789, "Hello!")`
serializes to exactly
`{"chat_id":123456789,"message_thread_id":null,"text":"Hello!"}`, and
dispatching it against the stub transport returning
`{"message_id":1,"date":1700000000,"chat":{"id":123456789,"type":"private"}}`
deserializes into a `Message` with `message_id = 1`, `text = None` and
`chat.id = 123456789`. -/
theorem C1_end_to_end :
    (SendMessageRequest.new 123456789 "Hello!").toJson
      = Json.obj [("chat_id", .num 123456789), ("message_thread_id", .null),
          ("text", .str "Hello!")] ∧
    (API.send_message stubTransport
        (SendMessageRequest.new 123456789 "Hello!")).map
        (fun m => (m.message_id, m.text, m.chat.id))
      = .ok (1, none, 123456789) :=
  ⟨rfl, rfl⟩

/-- C2: the claim is false as stated: `revoke_messages` is an optional
field of `BanChatMemberRequest` with no `skip_serializing_if`
annotation, so a request in which it is absent serializes to an object
that does contain the key `revoke_messages`, with value `null`. -/
theorem C2_counterexample :
    (BanChatMemberRequest.new "group" 7 none none).toJson.lookupKey
      "revoke_messages" = some Json.null := rfl

/-- C2 (amended): optional fields annotated
`skip_serializing_if = "Option::is_none"` are omitted entirely when
absent — in particular `until_date` of `BanChatMemberRequest` and
`reply_parameters`/`parse_mode`/`reply_markup` of
`SendMessageRequest` — while the unannotated optional fields
`revoke_messages` (in `BanChatMemberRequest`) and `message_thread_id`
(in `SendMessageRequest`) serialize as their key with value `null` when
absent. -/
theorem C2_omission_law :
    (∀ (c : String) (u : Int) (rm : Option Bool),
      (BanChatMemberRequest.new c u none rm).toJson.hasKey "until_date"
        = false) ∧
    (∀ (c : String) (u : Int) (ud : Option Int),
      (BanChatMemberRequest.new c u ud none).toJson.lookupKey
        "revoke_messages" = some .null) ∧
    (∀ (cid : Int) (t : String),
      (SendMessageRequest.new cid t).toJson.hasKey "reply_parameters" = false ∧
      (SendMessageRequest.new cid t).toJson.hasKey "parse_mode" = false ∧
      (SendMessageRequest.new cid t).toJson.hasKey "reply_markup" = false) ∧
    (∀ (cid : Int) (t : String),
      (SendMessageRequest.new cid t).toJson.lookupKey "message_thread_id"
        = some .null) := by
  refine ⟨?_, ?_, ?_, ?_⟩
  · intro c u rm
    rfl
  · intro c u ud
    cases ud <;> rfl
  · intro cid t
    exact ⟨rfl, rfl, rfl⟩
  · intro cid t
    rfl

/-- C3: the claim is false as stated: the identifier slot
`ReplyParameters.chat_id` is kept as an untyped `serde_json::Value` in
the source, not as the tagged union `{ Integer(i64) | Text(string) }`:
decoding a JSON boolean at that position succeeds and stores the raw
boolean, whereas the claimed tagged-union decoder (`ChatIdKind`,
modelled from the spec's words) rejects any non-number non-string
JSON value there. -/
theorem C3_counterexample :
    ReplyParameters.fromJson
        (Json.obj [("message_id", .num 1), ("chat_id", .bool true)])
      = .ok ⟨1, some (.bool true), none, none, none, none, none⟩ ∧
    ChatIdKind.fromJson (.bool true)
      = .error "chat_id must be an integer or a string" :=
  ⟨rfl, rfl⟩

/-- C3 (amended): the int-or-string identifier slot
`ReplyParameters.chat_id` is an untyped raw JSON value (and
`SetChatPermissionRequest.chat_id` is a plain string): a JSON number
`123456789` or a JSON string `"@channelusername"` supplied there is
emitted on the wire as that same number or string and decodes back to
the same raw JSON value, with no tagged variant involved, and
`SetChatPermissionRequest` always emits its `chat_id` as a JSON
string. -/
theorem C3_untyped_identifier :
    (∀ n : Int,
      (ReplyParameters.mk 0 (some (.num n)) none none none none
          none).toJson.lookupKey "chat_id" = some (.num n)) ∧
    (∀ s : String,
      (ReplyParameters.mk 0 (some (.str s)) none none none none
          none).toJson.lookupKey "chat_id" = some (.str s)) ∧
    (∀ n : Int,
      ReplyParameters.fromJson
          (Json.obj [("message_id", .num 0), ("chat_id", .num n)])
        = .ok ⟨0, some (.num n), none, none, none, none, none⟩) ∧
    (∀ s : String,
      ReplyParameters.fromJson
          (Json.obj [("message_id", .num 0), ("chat_id", .str s)])
        = .ok ⟨0, some (.str s), none, none, none, none, none⟩) ∧
    (∀ r : SetChatPermissionRequest,
      r.toJson.lookupKey "chat_id" = some (.str r.chat_id)) := by
  refine ⟨?_, ?_, ?_, ?_, ?_⟩ <;> intro x <;> rfl

/-- C4: for the request types `SendMessageRequest` and
`BanChatMemberRequest`, serializing a valid request value to JSON and
deserializing it back yields the original value (the hypothesis only
excludes `serde_json::Value`-typed fields holding JSON `null`, which
does not represent any value of those fields). -/
theorem C4_roundtrip (s : SendMessageRequest) (b : BanChatMemberRequest)
    (hs : s.valid = true) :
    SendMessageRequest.fromJson s.toJson = .ok s ∧
    BanChatMemberRequest.fromJson b.toJson = .ok b :=
  ⟨sendMessageRequest_roundtrip s hs, banChatMemberRequest_roundtrip b⟩

/-- A `SendMessageRequest` with every optional field present. -/
def smrAllFields : SendMessageRequest :=
  ⟨123456789, some 9, "Hello!",
    some ⟨5, some (.num 42), some true, some "q", some "MarkdownV2",
      some (.arr []), some 3⟩,
    some .HTML, some .replyKeyboardRemove⟩

/-- A `BanChatMemberRequest` with every optional field present. -/
def bcmAllFields : BanChatMemberRequest :=
  ⟨"@group", 7, some 1700000000, some true⟩

theorem C4_witness :
    smrAllFields.valid = true ∧
    (SendMessageRequest.fromJson smrAllFields.toJson = .ok smrAllFields ∧
     BanChatMemberRequest.fromJson bcmAllFields.toJson = .ok bcmAllFields) :=
  ⟨rfl, C4_roundtrip smrAllFields bcmAllFields rfl⟩

/-- C5: serializing an `EditMessageTextRequest` never emits a key named
`base`, and with every base field present the result is the single
flat object whose top-level keys are the base's fields (`chat_id`,
`message_id`, `inline_message_id`, `parse_mode`, `reply_markup`)
followed by the outer field `text`, as siblings. -/
theorem C5_flatten :
    (∀ r : EditMessageTextRequest, r.toJson.hasKey "base" = false) ∧
    (∀ (c m : Int) (i rm t : String) (p : ParseMode),
      (EditMessageTextRequest.mk ⟨some c, some m, some i, some p, some rm⟩
          t).toJson
        = Json.obj [("chat_id", .num c), ("message_id", .num m),
            ("inline_message_id", .str i), ("parse_mode", p.toJson),
            ("reply_markup", .str rm), ("text", .str t)]) := by
  constructor
  · intro r
    obtain ⟨⟨bc, bm, bi, bp, br⟩, t⟩ := r
    rcases bc <;> rcases bm <;> rcases bi <;> rcases bp <;> rcases br <;> rfl
  · intro c m i rm t p
    rfl

/-- C6: deserializing a `Chat` object that omits every optional field
succeeds with all of them absent, while deserializing one that lacks
the required key `id` fails with an error naming `id`. -/
theorem C6_optional_vs_required :
    (∀ (i : Int) (ty : String),
      Chat.fromJson (Json.obj [("id", .num i), ("type", .str ty)])
        = .ok ⟨i, ty, none, none, none, none, none, none⟩) ∧
    Chat.fromJson (Json.obj [("type", .str "private")])
      = .error "missing field id" := by
  constructor
  · intro i ty
    rfl
  · rfl

/-- C7: decoding a JSON string that matches no declared wire token of
`ChatAction` or of `ParseMode` is a deserialization error, never a
silent default. -/
theorem C7_unknown_token_rejected (s : String)
    (hca : s ∉ ["typing", "upload_photo", "record_video", "upload_video",
      "record_audio", "upload_audio", "upload_document", "find_location",
      "record_video_note", "upload_video_note"])
    (hpm : s ∉ ["MarkdownV2", "Markdown", "HTML", ""]) :
    ChatAction.fromJson (.str s)
      = .error ("unknown variant " ++ s ++ " for ChatAction") ∧
    ParseMode.fromJson (.str s)
      = .error ("unknown variant " ++ s ++ " for ParseMode") := by
  constructor
  · show ChatAction.fromJson (.str s) = _
    simp only [ChatAction.fromJson]
    repeat rw [if_neg (by rintro rfl; simp at hca)]
  · show ParseMode.fromJson (.str s) = _
    simp only [ParseMode.fromJson]
    repeat rw [if_neg (by rintro rfl; simp at hpm)]

theorem C7_witness :
    ChatAction.fromJson (.str "dancing")
      = .error ("unknown variant " ++ "dancing" ++ " for ChatAction") ∧
    ParseMode.fromJson (.str "dancing")
      = .error ("unknown variant " ++ "dancing" ++ " for ParseMode") :=
  C7_unknown_token_rejected "dancing" (by decide) (by decide)

/-- C8: every `ChatAction` variant serializes to its declared wire
token; in particular `UploadVideoNote` serializes to the literal
string `"upload_video_note"`. -/
theorem C8_declared_tokens :
    ChatAction.toJson .UploadVideoNote = .str "upload_video_note" ∧
    ChatAction.toJson .Typing = .str "typing" ∧
    ChatAction.toJson .UploadPhoto = .str "upload_photo" ∧
    ChatAction.toJson .RecordVideo = .str "record_video" ∧
    ChatAction.toJson .UploadVideo = .str "upload_video" ∧
    ChatAction.toJson .RecordAudio = .str "record_audio" ∧
    ChatAction.toJson .UploadAudio = .str "upload_audio" ∧
    ChatAction.toJson .UploadDocument = .str "upload_document" ∧
    ChatAction.toJson .FindLocation = .str "find_location" ∧
    ChatAction.toJson .RecordVideoNote = .str "record_video_note" :=
  ⟨rfl, rfl, rfl, rfl, rfl, rfl, rfl, rfl, rfl, rfl⟩

/-- C9: for every transport, chat id and text,
`remove_reply_keyboard(chat_id, text)` returns exactly what
`send_message` returns on
`SendMessageRequest::new(chat_id, text).with_reply_markup(reply_keyboard_remove())`,
and it posts under the same wire method name `sendMessage` (observed by
a probe transport that reports the method name it was given). -/
theorem C9_pure_composition (t : Transport) (chat_id : Int) (text : String) :
    API.remove_reply_keyboard t chat_id text
      = API.send_message t
          ((SendMessageRequest.new chat_id text).with_reply_markup
            ReplyMarkup.reply_keyboard_remove) ∧
    API.remove_reply_keyboard (fun m _ => .error m) chat_id text
      = .error "sendMessage" :=
  ⟨rfl, rfl⟩

/-- C10: `ParseMode::Text` serializes to the empty string (so a present
`parse_mode` of `Text` appears on the wire as `"parse_mode":""`),
decoding the empty string yields `Text`, and no other `ParseMode`
variant maps to the empty string. -/
theorem C10_empty_token_is_Text :
    ParseMode.toJson .Text = .str "" ∧
    ParseMode.fromJson (.str "") = .ok .Text ∧
    (∀ (cid : Int) (t : String),
      ((SendMessageRequest.new cid t).with_parse_mode
          .Text).toJson.lookupKey "parse_mode" = some (.str "")) ∧
    ParseMode.toJson .MarkdownV2 ≠ .str "" ∧
    ParseMode.toJson .Markdown ≠ .str "" ∧
    ParseMode.toJson .HTML ≠ .str "" := by
  refine ⟨rfl, rfl, ?_, ?_, ?_, ?_⟩
  · intro cid t
    rfl
  all_goals simp [ParseMode.toJson]

end Mobot
